import Mathlib

/-!
Shallow embedding of the figura template engine of this repository
(`src/figura/src/lib.rs`, `src/figura/src/directives.rs`,
`src/figura/src/error.rs`) together with theorems settling the claims
C1-C10 about it.

Conventions of the embedding:
* Rust `char` is Lean `Char`; Rust `String`/`&str` is Lean `String`
  (a list of characters, matching Rust's `chars()` iteration).
* Machine integers are embedded as `Int`/`Nat` with the explicit range
  checks of `i64`/`usize` where the source performs a fallible parse.
* Fallible code returns `Except TemplateError _`; a Rust panic
  (`unwrap()` on a failed parse) is the `none` case of an `Option`.
* Character classifications (`is_alphabetic`, `is_whitespace`,
  `is_alphanumeric`) are embedded on the ASCII fragment, which covers
  every input appearing in the claims.
-/

set_option maxRecDepth 8192

namespace Figura

/-- Decidable equality for `Except`, so that concrete runs of the
embedded functions can be settled by `decide`. -/
instance {ε α : Type} [DecidableEq ε] [DecidableEq α] : DecidableEq (Except ε α) := fun x y =>
  match x, y with
  | .ok a, .ok b => if h : a = b then isTrue (by rw [h]) else isFalse (by simp [h])
  | .error a, .error b => if h : a = b then isTrue (by rw [h]) else isFalse (by simp [h])
  | .ok _, .error _ => isFalse (by simp)
  | .error _, .ok _ => isFalse (by simp)

/-- Abbreviation letting the `Value`/`Token` constructors keep the
source's names without shadowing the underlying Lean type inside their
own declaration. -/
abbrev Str := String

/-- Abbreviation for `Int`, see `Str`. -/
abbrev IntT := Int

/-- Abbreviation for `Bool`, see `Str`. -/
abbrev BoolT := Bool

/-- Alignment options for formatted output (lib.rs lines 72-86). -/
inductive Alignment where
  | Left
  | Right
  | Center
deriving DecidableEq

/-- Default alignment, `Alignment::default()` in lib.rs (lines 82-86). -/
def Alignment.default : Alignment := .Left

/-- Parses a character into an alignment option, `Alignment::from_char`
(lib.rs lines 92-99). -/
def Alignment.from_char (ch : Char) : Option Alignment :=
  match ch with
  | '<' => some .Left
  | '>' => some .Right
  | '^' => some .Center
  | _ => none

/-- Template context value (lib.rs lines 13-20). -/
inductive Value where
  | String (s : Str)
  | Int (i : IntT)
  | Bool (b : BoolT)
deriving DecidableEq

/-- Stringification of a `Value`, the `ToString` impl of lib.rs lines
22-30 (string passthrough, `i64` and `bool` in their natural textual
form). -/
def Value.toString : Value → Str
  | .String s => s
  | .Int i => ToString.toString i
  | .Bool b => if b then "true" else "false"

/-- Template context, `HashMap<&'static str, Value>` (lib.rs line 42),
embedded as an association list with unique keys; `ctxGet` is
`HashMap::get`. -/
abbrev Context := List (String × Value)

/-- Lookup of a key in a `Context` (`ctx.get(key)` in the source). -/
def ctxGet (ctx : Context) (key : String) : Option Value :=
  ctx.lookup key

/-- Token produced by the tokenizer (lib.rs lines 46-57).  The
constructor `Uknown` keeps the source's spelling.  `directives.rs` calls
the string-run constructor `Token::Slice`; in `lib.rs`, the one `Token`
declaration of the crate, it is named `Literal`, and the tests of
`directives.rs` only pass when the two names denote the same
constructor, so the embedding uses `Literal` throughout. -/
inductive Token where
  | Delimiter (c : Char)
  | Literal (s : Str)
  | Symbol (c : Char)
  | Int (i : IntT)
  | Uknown (c : Char)
deriving DecidableEq

/-- Display of a `Token` (lib.rs lines 59-69), used by the `s!` macro in
`DefaultParser::parse`. -/
def Token.toString : Token → Str
  | .Delimiter c => String.mk [c]
  | .Literal l => l
  | .Symbol s => String.mk [s]
  | .Int i => ToString.toString i
  | .Uknown c => String.mk [c]

/-- Template error type (error.rs lines 8-65). -/
inductive TemplateError where
  | MissingOpenDelimiter (c : Char)
  | MissingClosedDelimiter (c : Char)
  | MissingDelimiter (c : Char)
  | NoValueFound (s : Str)
  | DirectiveParsing (s : Str)
  | ExecutionError (s : Str)
deriving DecidableEq

/-- ASCII fragment of Rust `char::is_alphabetic`.  Every character fed
to the tokenizer in this development is ASCII, where the two agree. -/
def rustIsAlphabetic (c : Char) : Bool := c.isAlpha

/-- ASCII fragment of Rust `char::is_whitespace` (the `White_Space`
characters below U+0080). -/
def rustIsWhitespace (c : Char) : Bool :=
  c == ' ' || c == '\t' || c == '\n' || c == '\x0b' || c == '\x0c' || c == '\r'

/-- ASCII fragment of Rust `char::is_alphanumeric`
(`is_alphabetic || is_numeric`). -/
def rustIsAlphanumeric (c : Char) : Bool := rustIsAlphabetic c || c.isDigit

/-- Numeric value of a list of ASCII digits. -/
def digitsToNat (ds : List Char) : Nat :=
  ds.foldl (fun acc c => 10 * acc + (c.toNat - 48)) 0

/-- Rust `str::parse::<i64>`: an optional single sign followed by a
nonempty run of ASCII digits, with the value required to fit in `i64`. -/
def parseI64 (s : String) : Option Int :=
  let p : Int × List Char :=
    match s.toList with
    | '+' :: rest => (1, rest)
    | '-' :: rest => (-1, rest)
    | cs => (1, cs)
  if p.2 ≠ [] ∧ p.2.all Char.isDigit then
    let v : Int := p.1 * (digitsToNat p.2 : Int)
    if -(2 ^ 63) ≤ v ∧ v ≤ 2 ^ 63 - 1 then some v else none
  else none

/-- Rust `str::parse::<usize>` (64-bit target): an optional `+` followed
by a nonempty run of ASCII digits, with the value required to fit in
`u64`. -/
def parseUsize (s : String) : Option Nat :=
  let ds : List Char :=
    match s.toList with
    | '+' :: rest => rest
    | cs => cs
  if ds ≠ [] ∧ ds.all Char.isDigit then
    let v := digitsToNat ds
    if v ≤ 2 ^ 64 - 1 then some v else none
  else none

/-- Rust `str::repeat`: `n` concatenated copies of `s`. -/
def strRepeat (s : String) (n : Nat) : String :=
  String.join (List.replicate n s)

/-- Built-in directives of directives.rs: `NoDirective` (line 93),
`ReplaceDirective` (line 119), `RepeatDirective` (line 156) and
`ConditionalDirective` (lines 233-236).  The source stores each behind
`Box<dyn Directive>`; the default parser only ever produces these four,
so the embedding uses a closed sum. -/
inductive Directive where
  | NoDirective (content : String)
  | ReplaceDirective (name : String)
  | RepeatDirective (pattern count : String)
  | ConditionalDirective (condition : String) (parts : String × String)
deriving DecidableEq

/-- Resolution of the `pattern` operand of `RepeatDirective::execute`
(directives.rs lines 160-165): a context hit is stringified, a miss
means the literal text is used. -/
def resolveRepeatPattern (ctx : Context) (pattern : String) : String :=
  match ctxGet ctx pattern with
  | some p => p.toString
  | none => pattern

/-- Execution of a directive against a context: the four `Directive`
impls of directives.rs (`NoDirective` lines 95-100, `ReplaceDirective`
lines 121-129, `RepeatDirective` lines 158-188, `ConditionalDirective`
lines 238-263). -/
def Directive.execute : Directive → Context → Except TemplateError String
  | .NoDirective content, _ => .ok content
  | .ReplaceDirective name, ctx =>
    match ctxGet ctx name with
    | some v => .ok v.toString
    | none => .error (.NoValueFound name)
  | .RepeatDirective pattern count, ctx =>
    match ctxGet ctx count with
    | some c =>
      match c with
      | .Int i =>
        if i > 0 then .ok (strRepeat (resolveRepeatPattern ctx pattern) i.toNat)
        else .error (.ExecutionError "Could not parse a numeric value for the repeat count")
      | _ => .error (.ExecutionError "Could not parse a numeric value for the repeat count")
    | none =>
      match parseUsize count with
      | some n => .ok (strRepeat (resolveRepeatPattern ctx pattern) n)
      | none => .error (.ExecutionError "Could not parse a numeric value for the repeat count")
  | .ConditionalDirective condition parts, ctx =>
    let cond : Bool :=
      match ctxGet ctx condition with
      | some v =>
        match v with
        | .Bool b => b
        | _ => true
      | none => false
    if cond then .ok parts.1 else .ok parts.2

/-- The default parser, `DefaultParser::parse` (directives.rs lines
288-315).  The source always returns `Some`, so the embedding is total. -/
def DefaultParser.parse (tokens : List Token) (content : String) : Directive :=
  match tokens with
  | [Token.Literal s] => .ReplaceDirective s
  | [fist_part, Token.Symbol ':', second_part] =>
    .RepeatDirective fist_part.toString second_part.toString
  | [Token.Literal condition, Token.Symbol '?',
     Token.Literal part1, Token.Symbol ':', Token.Literal part2] =>
    .ConditionalDirective condition (part1, part2)
  | _ => .NoDirective content

/-- Flush of the pending numeric buffer of the tokenizer: the source
runs `number.parse::<i64>().unwrap()` on a nonempty buffer, so a failed
parse is a Rust panic, embedded as `none`. -/
def flushNumber (number : List Char) : Option (List Token) :=
  if number.isEmpty then some []
  else
    match parseI64 (String.mk number) with
    | some n => some [Token.Int n]
    | none => none

/-- Flush of the pending literal buffer of the tokenizer. -/
def flushLiteral (literal : List Char) : List Token :=
  if literal.isEmpty then [] else [Token.Literal (String.mk literal)]

/-- Main loop of `Template::tokenize` (lib.rs lines 286-362), carrying
the `literal` and `number` buffers.  Branches appear in the source's
match order: delimiter, alphabetic/underscore/whitespace, ASCII digit,
symbol, and the silent catch-all. -/
def tokenizeAux (O C : Char) : List Char → List Char → List Char → Option (List Token)
  | [], literal, number =>
    match flushNumber number with
    | none => none
    | some nts => some (flushLiteral literal ++ nts)
  | c :: rest, literal, number =>
    if c = O ∨ c = C then
      match flushNumber number with
      | none => none
      | some nts =>
        (tokenizeAux O C rest [] []).map
          (fun ts => nts ++ flushLiteral literal ++ [Token.Delimiter c] ++ ts)
    else if rustIsAlphabetic c ∨ c = '_' ∨ rustIsWhitespace c then
      match flushNumber number with
      | none => none
      | some nts => (tokenizeAux O C rest (literal ++ [c]) []).map (fun ts => nts ++ ts)
    else if c.isDigit then
      (tokenizeAux O C rest [] (number ++ [c])).map (fun ts => flushLiteral literal ++ ts)
    else if ¬ rustIsAlphanumeric c ∧ ¬ rustIsWhitespace c then
      match flushNumber number with
      | none => none
      | some nts =>
        (tokenizeAux O C rest [] []).map
          (fun ts => nts ++ flushLiteral literal ++ [Token.Symbol c] ++ ts)
    else tokenizeAux O C rest literal number

/-- `Template::<O, C>::tokenize` (lib.rs lines 286-362); `none` is the
panic of the `unwrap()` calls on lines 299, 315, 335 and 358. -/
def tokenize (O C : Char) (input : String) : Option (List Token) :=
  tokenizeAux O C input.toList [] []

/-- Scan loop of `Template::validate_delimiters` for distinct delimiters
(lib.rs lines 249-280), ending with the final `depth > 0` check of lines
276-278.  The first argument is recursion fuel: every iteration consumes
at least one input character, so any fuel exceeding the input length
makes the fuel-exhaustion case unreachable; `validate_delimiters`
supplies `length + 1`. -/
def validateAux (O C : Char) : Nat → List Char → Int → Except TemplateError Unit
  | 0, _, _ => .ok ()
  | _ + 1, [], depth =>
    if depth > 0 then .error (.MissingClosedDelimiter C) else .ok ()
  | fuel + 1, ch :: rest, depth =>
    if ch = O then
      if rest.head? = some O then
        -- escape sequence: the peeked second open character is consumed
        validateAux O C fuel rest.tail depth
      else validateAux O C fuel rest (depth + 1)
    else if ch = C then
      if rest.head? = some C then
        -- escape sequence: the peeked second close character is consumed
        validateAux O C fuel rest.tail depth
      else if depth - 1 < 0 then .error (.MissingOpenDelimiter O)
      else validateAux O C fuel rest (depth - 1)
    else validateAux O C fuel rest depth

/-- `Template::validate_delimiters` (lib.rs lines 238-281).  Note the
symmetric branch of the source counts the characters that are NOT the
shared delimiter: `chars.filter(|c| *c != C).count() % 2 != 0`. -/
def Template.validate_delimiters (O C : Char) (input : String) : Except TemplateError Unit :=
  if C = O then
    if (input.toList.filter (fun c => c != C)).length % 2 ≠ 0 then
      .error (.MissingDelimiter O)
    else .ok ()
  else validateAux O C (input.toList.length + 1) input.toList 0

/-- Inner content loop of `Template::parse` (lib.rs lines 164-172): the
characters before the first close delimiter, and the remainder after
it. -/
def takeContent (C : Char) (l : List Char) : List Char × List Char :=
  (l.takeWhile (fun c => c != C), (l.dropWhile (fun c => c != C)).tail)

/-- Alignment extraction of `Template::parse` (lib.rs lines 174-180): if
the last character of a bracket segment's content is an alignment marker
it is removed and overwrites the current alignment. -/
def extractAlignment (content : String) (alignment : Alignment) : String × Alignment :=
  match content.toList.getLast? with
  | some last_ch =>
    match Alignment.from_char last_ch with
    | some a => (String.mk content.toList.dropLast, a)
    | none => (content, alignment)
  | none => (content, alignment)

/-- Part of a parsed template (lib.rs lines 104-109). -/
inductive Part where
  | Literal (s : Str)
  | Directive (d : Figura.Directive)
deriving DecidableEq

/-- A parsed template (lib.rs lines 125-128). -/
structure Template where
  parts : List Part
  alignment : Alignment
deriving DecidableEq

/-- Main loop of `Template::parse` (lib.rs lines 143-209), specialised
to `DefaultParser`.  Since `DefaultParser::parse` always returns `Some`,
the `DirectiveParsing` early return of line 187 is unreachable and
omitted.  The first argument is recursion fuel: every loop iteration
consumes at least one input character, so any fuel exceeding the input
length makes the fuel-exhaustion case (`none`) unreachable;
`Template.parse` supplies `length + 1`.  A `none` result otherwise
propagates a tokenizer panic. -/
def parseAux (O C : Char) : Nat → List Char → List Char → Alignment → List Part →
    Option (List Part × Alignment)
  | 0, _, _, _, _ => none
  | _ + 1, [], literal, alignment, parts =>
    some ((if literal.isEmpty then parts else parts ++ [Part.Literal (String.mk literal)]),
      alignment)
  | fuel + 1, ch :: rest, literal, alignment, parts =>
    if ch = O then
      if rest.head? = some O then
        -- double opening character: escape sequence
        parseAux O C fuel rest.tail (literal ++ [O]) alignment parts
      else
        let parts1 := if literal.isEmpty then parts
          else parts ++ [Part.Literal (String.mk literal)]
        let tc := takeContent C rest
        let ea := extractAlignment (String.mk tc.1) alignment
        match tokenize O C ea.1 with
        | none => none
        | some tokens =>
          parseAux O C fuel tc.2 [] ea.2
            (parts1 ++ [Part.Directive (DefaultParser.parse tokens ea.1)])
    else if ch = C then
      if rest.head? = some C then
        -- double closing character: escape sequence
        parseAux O C fuel rest.tail (literal ++ [C]) alignment parts
      else
        -- single closing character: added to the literal, nothing consumed
        parseAux O C fuel rest (literal ++ [C]) alignment parts
    else parseAux O C fuel rest (literal ++ [ch]) alignment parts

/-- `Template::<O, C>::parse::<DefaultParser>` (lib.rs lines 134-217):
delimiters are validated over the whole input first, then the scan
splits literals from bracket segments. -/
def Template.parse (O C : Char) (t : String) : Option (Except TemplateError Template) :=
  match Template.validate_delimiters O C t with
  | .error e => some (.error e)
  | .ok _ =>
    match parseAux O C (t.toList.length + 1) t.toList [] Alignment.default [] with
    | none => none
    | some pa => some (.ok ⟨pa.1, pa.2⟩)

/-- Formatting loop of `Template::format` (lib.rs lines 222-233): parts
are concatenated in order, aborting on the first directive error. -/
def formatParts : List Part → Context → Except TemplateError String
  | [], _ => .ok ""
  | p :: rest, ctx =>
    match p with
    | .Literal s => (formatParts rest ctx).map (fun r => s ++ r)
    | .Directive d =>
      match d.execute ctx with
      | .error e => .error e
      | .ok s => (formatParts rest ctx).map (fun r => s ++ r)

/-- `Template::format` (lib.rs lines 222-233). -/
def Template.format (t : Template) (ctx : Context) : Except TemplateError String :=
  formatParts t.parts ctx

/-- Spec-level rewriting used by claim C2: escaped doubled delimiter
pairs (`open open`, `closed closed`) are consumed as two characters, per
the claim's words, leaving exactly the characters the depth counter
sees. -/
def specEraseEscapes (O C : Char) : List Char → List Char
  | [] => []
  | [c] => [c]
  | a :: rest@(b :: rest2) =>
    if a = O ∧ b = O then specEraseEscapes O C rest2
    else if a = C ∧ b = C then specEraseEscapes O C rest2
    else a :: specEraseEscapes O C rest

/-- Spec-level depth scan of claim C2, written from the claim's words: a
signed depth counter incremented on an open, decremented on a close with
an immediate `MissingOpenDelimiter` failure when it would go negative,
and a final `MissingClosedDelimiter` failure when positive at the end. -/
def specDepth (O C : Char) : List Char → Int → Except TemplateError Unit
  | [], depth =>
    if depth > 0 then .error (.MissingClosedDelimiter C) else .ok ()
  | c :: rest, depth =>
    if c = O then specDepth O C rest (depth + 1)
    else if c = C then
      if depth - 1 < 0 then .error (.MissingOpenDelimiter O)
      else specDepth O C rest (depth - 1)
    else specDepth O C rest depth

/-- Helper for claim C2: with sufficient fuel, the asymmetric scan of the
source equals the spec-level depth scan run on the input with its
escaped doubled pairs erased. -/
theorem validateAux_eq_specDepth (O C : Char) (h : C ≠ O) :
    ∀ (fuel : Nat) (l : List Char) (d : Int), l.length < fuel →
      validateAux O C fuel l d = specDepth O C (specEraseEscapes O C l) d := by
  intro fuel
  induction fuel with
  | zero =>
    intro l d hl
    exact absurd hl (by omega)
  | succ fuel ih =>
    intro l d hl
    match l with
    | [] => simp [validateAux, specEraseEscapes, specDepth]
    | [a] =>
      have hrec : ∀ d' : Int, validateAux O C fuel [] d' =
          specDepth O C (specEraseEscapes O C []) d' := by
        intro d'
        exact ih [] d' (by simp at hl ⊢; omega)
      by_cases haO : a = O
      · simp [validateAux, specEraseEscapes, specDepth, haO, hrec]
      · by_cases haC : a = C
        · simp [validateAux, specEraseEscapes, specDepth, haO, haC, hrec]
        · simp [validateAux, specEraseEscapes, specDepth, haO, haC, hrec]
    | a :: b :: rest =>
      have hlen1 : (b :: rest).length < fuel := by simp at hl ⊢; omega
      have hlen2 : rest.length < fuel := by simp at hl ⊢; omega
      have hOC : ¬ O = C := fun hh => h hh.symm
      by_cases haO : a = O
      · by_cases hbO : b = O
        · simp [validateAux, specEraseEscapes, haO, hbO, ih _ _ hlen2]
        · simp [validateAux, specEraseEscapes, specDepth, haO, hbO, hOC,
            ih _ _ hlen1]
      · by_cases haC : a = C
        · by_cases hbC : b = C
          · simp [validateAux, specEraseEscapes, specDepth, haO, haC, hbC, h,
              ih _ _ hlen2]
          · by_cases hd : d - 1 < 0
            · simp [validateAux, specEraseEscapes, specDepth, haO, haC, hbC, h, hd]
            · simp [validateAux, specEraseEscapes, specDepth, haO, haC, hbC, h, hd,
                ih _ _ hlen1]
        · simp [validateAux, specEraseEscapes, specDepth, haO, haC,
            ih _ _ hlen1]

/-- Claim C1: the claim states that symmetric-delimiter validation fails
with `MissingDelimiter` exactly when the count of the shared delimiter
character is odd.  The source instead takes the parity of the characters
that are NOT the delimiter (`chars.filter(|c| *c != C)`), so the input
"a" (zero slashes, an even count) is rejected and "/ab" (one slash, an
odd count) is accepted; the claim's particular example "/a/b/c" does
fail as stated.  This theorem evaluates the embedded code at those
inputs, exhibiting the code bug. -/
theorem symmetric_delimiter_count_bug :
    Template.validate_delimiters '/' '/' "a" =
      Except.error (TemplateError.MissingDelimiter '/')
    ∧ ("a".toList.count '/') % 2 = 0
    ∧ Template.validate_delimiters '/' '/' "/ab" = Except.ok ()
    ∧ ("/ab".toList.count '/') % 2 = 1
    ∧ Template.validate_delimiters '/' '/' "/a/b/c" =
      Except.error (TemplateError.MissingDelimiter '/') := by
  decide

/-- Claim C2: for distinct delimiters, validation is the signed-depth
scan of the claim: escaped doubled pairs are consumed without affecting
the depth (stated as equality with the spec-level depth scan run on the
input with its escaped pairs erased, which fails with
`MissingOpenDelimiter(open)` the moment the depth would go negative and
with `MissingClosedDelimiter(closed)` when the depth is positive at the
end); in particular parsing "Hello {name" yields
`MissingClosedDelimiter('}')` and parsing "Hello name}" yields
`MissingOpenDelimiter('{')`. -/
theorem validate_asym_spec (O C : Char) (h : C ≠ O) (s : String) :
    Template.validate_delimiters O C s =
      specDepth O C (specEraseEscapes O C s.toList) 0
    ∧ Template.parse '{' '}' "Hello \x7bname" =
        some (Except.error (TemplateError.MissingClosedDelimiter '}'))
    ∧ Template.parse '{' '}' "Hello name\x7d" =
        some (Except.error (TemplateError.MissingOpenDelimiter '{')) := by
  refine ⟨?_, by decide, by decide⟩
  simp only [Template.validate_delimiters, if_neg h]
  exact validateAux_eq_specDepth O C h (s.toList.length + 1) s.toList 0 (by omega)

/-- Witness for C2 at the concrete delimiters `'{'`/`'}'` and the input
"ab{c}". -/
theorem validate_asym_spec_witness :
    ('}' : Char) ≠ '{'
    ∧ (Template.validate_delimiters '{' '}' "ab{c}" =
        specDepth '{' '}' (specEraseEscapes '{' '}' "ab{c}".toList) 0
      ∧ Template.parse '{' '}' "Hello \x7bname" =
          some (Except.error (TemplateError.MissingClosedDelimiter '}'))
      ∧ Template.parse '{' '}' "Hello name\x7d" =
          some (Except.error (TemplateError.MissingOpenDelimiter '{'))) :=
  ⟨by decide, validate_asym_spec '{' '}' (by decide) "ab{c}"⟩

/-- Claim C3: the claim (and the crate's own test `test_repeat_directive`
in directives.rs) states that formatting the parsed template "{word:-1}"
fails with the invalid-count error.  In the source, the tokenizer emits
`-` as `Symbol('-')`, so the segment tokenizes to four tokens, misses
the three-token `Repeat` pattern of `DefaultParser`, falls back to
`NoDirective("word:-1")`, and formatting succeeds with "word:-1" for
every context.  This theorem evaluates the embedded code at that input,
exhibiting the divergence. -/
theorem word_minus_one_formats_ok :
    Template.parse '{' '}' "{word:-1}" =
      some (Except.ok ⟨[Part.Directive (Directive.NoDirective "word:-1")], Alignment.Left⟩)
    ∧ tokenize '{' '}' "word:-1" =
        some [Token.Literal "word", Token.Symbol ':', Token.Symbol '-', Token.Int 1]
    ∧ (∀ ctx : Context,
        Template.format ⟨[Part.Directive (Directive.NoDirective "word:-1")], Alignment.Left⟩
          ctx = Except.ok "word:-1") := by
  refine ⟨by decide, by decide, ?_⟩
  intro ctx
  simp [Template.format, formatParts, Directive.execute, Except.map, String.append_empty]

/-- Claim C4 counterexample: the claim states that a context entry
binding the count key to the non-negative integer 0 yields the empty
string; the source's guard is `Value::Int(i) if *i > 0`, so `Int(0)`
from the context falls through to the invalid-count execution error. -/
theorem repeat_zero_count_cex :
    Directive.execute (Directive.RepeatDirective "x" "count") [("count", Value.Int 0)] =
      Except.error
        (TemplateError.ExecutionError "Could not parse a numeric value for the repeat count")
    ∧ Directive.execute (Directive.RepeatDirective "x" "count") [("count", Value.Int 0)] ≠
      Except.ok "" := by
  decide

/-- Claim C4 as amended: a context hit for the count key must be a
STRICTLY positive integer `Value::Int(i)`, which repeats the resolved
pattern `i` times; a context hit with `Int(i)` for `i ≤ 0` (including
zero), or with any non-integer value, fails with the count-type
execution error; an absent key falls back to parsing the literal count
text as a `usize` (so a literal "0" yields the empty string), failing
with the same error when that parse fails. -/
theorem repeat_execute_amended (p c : String) (ctx : Context) :
    (∀ i : Int, ctxGet ctx c = some (Value.Int i) → 0 < i →
      Directive.execute (Directive.RepeatDirective p c) ctx =
        Except.ok (strRepeat (resolveRepeatPattern ctx p) i.toNat))
    ∧ (∀ i : Int, ctxGet ctx c = some (Value.Int i) → i ≤ 0 →
      Directive.execute (Directive.RepeatDirective p c) ctx =
        Except.error
          (TemplateError.ExecutionError "Could not parse a numeric value for the repeat count"))
    ∧ (∀ v : Value, ctxGet ctx c = some v → (∀ i : Int, v ≠ Value.Int i) →
      Directive.execute (Directive.RepeatDirective p c) ctx =
        Except.error
          (TemplateError.ExecutionError "Could not parse a numeric value for the repeat count"))
    ∧ (∀ n : Nat, ctxGet ctx c = none → parseUsize c = some n →
      Directive.execute (Directive.RepeatDirective p c) ctx =
        Except.ok (strRepeat (resolveRepeatPattern ctx p) n))
    ∧ (ctxGet ctx c = none → parseUsize c = none →
      Directive.execute (Directive.RepeatDirective p c) ctx =
        Except.error
          (TemplateError.ExecutionError "Could not parse a numeric value for the repeat count")) := by
  refine ⟨?_, ?_, ?_, ?_, ?_⟩
  · intro i hg hip
    simp [Directive.execute, hg, hip]
  · intro i hg hin
    have hni : ¬ i > 0 := by omega
    simp [Directive.execute, hg, hni]
  · intro v hg hv
    cases v with
    | String s => simp [Directive.execute, hg]
    | Int i => exact absurd rfl (hv i)
    | Bool b => simp [Directive.execute, hg]
  · intro n hg hp
    simp [Directive.execute, hg, hp]
  · intro hg hp
    simp [Directive.execute, hg, hp]

/-- Witness for the amended C4 at a concrete directive and context. -/
theorem repeat_execute_amended_witness :
    Directive.execute (Directive.RepeatDirective "hi" "count") [("count", Value.Int 3)] =
      Except.ok (strRepeat (resolveRepeatPattern [("count", Value.Int 3)] "hi") (Int.toNat 3)) :=
  (repeat_execute_amended "hi" "count" [("count", Value.Int 3)]).1 3 (by decide) (by decide)

/-- Claim C5: the claim states the tokenizer never panics, handling a
failed numeric parse defensively as an `Unknown` token.  The source
instead calls `number.parse::<i64>().unwrap()`, so a digit run whose
value exceeds the `i64` range panics (embedded as `none`); this theorem
evaluates the embedded tokenizer at the twenty-digit input, exhibiting
the abort. -/
theorem tokenize_overflow_aborts :
    tokenize '{' '}' "99999999999999999999" = none
    ∧ tokenize '{' '}' "9223372036854775807" = some [Token.Int 9223372036854775807] := by
  decide

/-- Claim C6 counterexample: the claim states "-123" tokenizes to the
single token `Int(-123)`; the source has no sign lookahead and emits
`Symbol('-')` followed by `Int(123)` (as the crate's own test
`test_tokenize_negative_number_as_symbol_and_number` asserts). -/
theorem minus_number_cex :
    tokenize '{' '}' "-123" = some [Token.Symbol '-', Token.Int 123]
    ∧ tokenize '{' '}' "-123" ≠ some [Token.Int (-123)] := by
  decide

/-- Claim C6 as amended: a `-` character is always emitted as
`Symbol('-')`, whether or not a digit follows: a leading `-` contributes
`Symbol('-')` and the remainder is tokenized independently, so "-123"
yields `[Symbol('-'), Int(123)]` and "-a" yields
`[Symbol('-'), Literal("a")]`. -/
theorem minus_always_symbol (rest : List Char) :
    tokenize '{' '}' (String.mk ('-' :: rest)) =
      (tokenize '{' '}' (String.mk rest)).map (fun ts => Token.Symbol '-' :: ts)
    ∧ tokenize '{' '}' "-123" = some [Token.Symbol '-', Token.Int 123]
    ∧ tokenize '{' '}' "-a" = some [Token.Symbol '-', Token.Literal "a"] := by
  refine ⟨?_, by decide, by decide⟩
  cases htk : tokenizeAux '{' '}' rest [] [] with
  | none =>
    simp +decide [tokenize, tokenizeAux, flushNumber, flushLiteral, String.toList, htk]
  | some ts =>
    simp +decide [tokenize, tokenizeAux, flushNumber, flushLiteral, String.toList, htk]

/-- Claim C7: `ReplaceDirective` execution fails with `NoValueFound(name)`
exactly when the name is absent from the context, and returns the
stringified context value on a hit; in particular the template
"Hello, {name}!" parses to literal/replace/literal parts, formats to
"Hello, Alice!" with name bound to "Alice", and fails with
`NoValueFound("name")` against the empty context. -/
theorem replace_semantics (name : String) (ctx : Context) :
    (Directive.execute (Directive.ReplaceDirective name) ctx =
        Except.error (TemplateError.NoValueFound name) ↔ ctxGet ctx name = none)
    ∧ (∀ v : Value, ctxGet ctx name = some v →
      Directive.execute (Directive.ReplaceDirective name) ctx = Except.ok v.toString)
    ∧ Template.parse '{' '}' "Hello, {name}!" =
        some (Except.ok ⟨[Part.Literal "Hello, ",
          Part.Directive (Directive.ReplaceDirective "name"), Part.Literal "!"],
          Alignment.Left⟩)
    ∧ Template.format ⟨[Part.Literal "Hello, ",
          Part.Directive (Directive.ReplaceDirective "name"), Part.Literal "!"],
          Alignment.Left⟩ [("name", Value.String "Alice")] = Except.ok "Hello, Alice!"
    ∧ Template.format ⟨[Part.Literal "Hello, ",
          Part.Directive (Directive.ReplaceDirective "name"), Part.Literal "!"],
          Alignment.Left⟩ [] = Except.error (TemplateError.NoValueFound "name") := by
  refine ⟨?_, ?_, by decide, by decide, by decide⟩
  · cases hv : ctxGet ctx name with
    | none => simp [Directive.execute, hv]
    | some v => simp [Directive.execute, hv]
  · intro v hv
    simp [Directive.execute, hv]

/-- Witness for C7 at the concrete name "name" and a context binding it
to the string "Alice". -/
theorem replace_semantics_witness :
    Directive.execute (Directive.ReplaceDirective "name") [("name", Value.String "Alice")] =
      Except.ok (Value.toString (Value.String "Alice")) :=
  (replace_semantics "name" [("name", Value.String "Alice")]).2.1
    (Value.String "Alice") (by decide)

/-- Claim C8: `ConditionalDirective` execution selects the branch by the
boolean context value when the condition key holds a boolean, treats any
non-boolean hit as truthy, treats an absent key as falsy, always returns
one of the two stored literal branch texts unchanged, and never fails;
in particular "{username?In:Out}" parses to a conditional directive that
formats to "In" when username is bound to the string "Alice" and to
"Out" against the empty context. -/
theorem conditional_semantics (cond t f : String) (ctx : Context) :
    (∀ b : Bool, ctxGet ctx cond = some (Value.Bool b) →
      Directive.execute (Directive.ConditionalDirective cond (t, f)) ctx =
        Except.ok (if b then t else f))
    ∧ (∀ v : Value, ctxGet ctx cond = some v → (∀ b : Bool, v ≠ Value.Bool b) →
      Directive.execute (Directive.ConditionalDirective cond (t, f)) ctx = Except.ok t)
    ∧ (ctxGet ctx cond = none →
      Directive.execute (Directive.ConditionalDirective cond (t, f)) ctx = Except.ok f)
    ∧ (∃ s : String,
        Directive.execute (Directive.ConditionalDirective cond (t, f)) ctx = Except.ok s
        ∧ (s = t ∨ s = f))
    ∧ Template.parse '{' '}' "{username?In:Out}" =
        some (Except.ok ⟨[Part.Directive
          (Directive.ConditionalDirective "username" ("In", "Out"))], Alignment.Left⟩)
    ∧ Template.format ⟨[Part.Directive
          (Directive.ConditionalDirective "username" ("In", "Out"))], Alignment.Left⟩
        [("username", Value.String "Alice")] = Except.ok "In"
    ∧ Template.format ⟨[Part.Directive
          (Directive.ConditionalDirective "username" ("In", "Out"))], Alignment.Left⟩
        [] = Except.ok "Out" := by
  refine ⟨?_, ?_, ?_, ?_, by decide, by decide, by decide⟩
  · intro b hb
    cases b <;> simp [Directive.execute, hb]
  · intro v hv hnb
    cases v with
    | String s => simp [Directive.execute, hv]
    | Int i => simp [Directive.execute, hv]
    | Bool b => exact absurd rfl (hnb b)
  · intro hn
    simp [Directive.execute, hn]
  · cases hv : ctxGet ctx cond with
    | none => exact ⟨f, by simp [Directive.execute, hv], Or.inr rfl⟩
    | some v =>
      cases v with
      | String s => exact ⟨t, by simp [Directive.execute, hv], Or.inl rfl⟩
      | Int i => exact ⟨t, by simp [Directive.execute, hv], Or.inl rfl⟩
      | Bool b =>
        cases b with
        | false => exact ⟨f, by simp [Directive.execute, hv], Or.inr rfl⟩
        | true => exact ⟨t, by simp [Directive.execute, hv], Or.inl rfl⟩

/-- Witness for C8 at the concrete directive of the claim's example and
a context binding username to a non-boolean value. -/
theorem conditional_semantics_witness :
    Directive.execute (Directive.ConditionalDirective "username" ("In", "Out"))
      [("username", Value.String "Alice")] = Except.ok "In" :=
  (conditional_semantics "username" "In" "Out" [("username", Value.String "Alice")]).2.1
    (Value.String "Alice") (by decide) (by decide)

/-- Claim C9: the template alignment is derived only from the last
character of each bracket segment's raw content -- a trailing `<`, `>`
or `^` is consumed and overwrites the template-wide alignment (last
segment wins), any other last character leaves the content and alignment
unchanged, and a template without markers keeps the default `Left`; in
particular "{name<>^}" parses with alignment `Center` and directive
content "name<>". -/
theorem alignment_extraction :
    Template.parse '{' '}' "{name<>^}" =
      some (Except.ok ⟨[Part.Directive (Directive.NoDirective "name<>")], Alignment.Center⟩)
    ∧ Template.parse '{' '}' "{name}" =
      some (Except.ok ⟨[Part.Directive (Directive.ReplaceDirective "name")], Alignment.Left⟩)
    ∧ Template.parse '{' '}' "{a<}{b>}" =
      some (Except.ok ⟨[Part.Directive (Directive.ReplaceDirective "a"),
        Part.Directive (Directive.ReplaceDirective "b")], Alignment.Right⟩)
    ∧ (∀ (content : String) (al : Alignment) (last_ch : Char) (a : Alignment),
        content.toList.getLast? = some last_ch → Alignment.from_char last_ch = some a →
        extractAlignment content al = (String.mk content.toList.dropLast, a))
    ∧ (∀ (content : String) (al : Alignment) (last_ch : Char),
        content.toList.getLast? = some last_ch → Alignment.from_char last_ch = none →
        extractAlignment content al = (content, al)) := by
  refine ⟨by decide, by decide, by decide, ?_, ?_⟩
  · intro content al last_ch a h1 h2
    have h1d : content.data.getLast? = some last_ch := h1
    simp [extractAlignment, h1d, h2]
  · intro content al last_ch h1 h2
    have h1d : content.data.getLast? = some last_ch := h1
    simp [extractAlignment, h1d, h2]

/-- Witness for C9 at the concrete content "name<>^" of the claim's
example. -/
theorem alignment_extraction_witness :
    extractAlignment "name<>^" Alignment.Left =
      (String.mk "name<>^".toList.dropLast, Alignment.Center) :=
  alignment_extraction.2.2.2.1 "name<>^" Alignment.Left '^' Alignment.Center
    (by decide) (by decide)

/-- Claim C10: for distinct delimiters a doubled delimiter character
collapses to exactly one literal delimiter character in the formatted
output and never opens or closes a directive segment: for any distinct
open/close characters, the two-character inputs `open open` and
`closed closed` each parse to a single literal part holding one copy of
the character, which formats back to that one character; in particular
"{{literal}}" parses to the single literal part "{literal}" and formats
to "{literal}" with the empty context. -/
theorem escape_roundtrip (O C : Char) (h : O ≠ C) :
    Template.parse O C (String.mk [O, O]) =
      some (Except.ok ⟨[Part.Literal (String.mk [O])], Alignment.Left⟩)
    ∧ Template.parse O C (String.mk [C, C]) =
      some (Except.ok ⟨[Part.Literal (String.mk [C])], Alignment.Left⟩)
    ∧ Template.format ⟨[Part.Literal (String.mk [O])], Alignment.Left⟩ [] =
      Except.ok (String.mk [O])
    ∧ Template.format ⟨[Part.Literal (String.mk [C])], Alignment.Left⟩ [] =
      Except.ok (String.mk [C])
    ∧ Template.parse '{' '}' "\x7b\x7bliteral\x7d\x7d" =
      some (Except.ok ⟨[Part.Literal "\x7bliteral\x7d"], Alignment.Left⟩)
    ∧ Template.format ⟨[Part.Literal "\x7bliteral\x7d"], Alignment.Left⟩ [] =
      Except.ok "\x7bliteral\x7d" := by
  have hCO : ¬ C = O := fun hh => h hh.symm
  refine ⟨?_, ?_, ?_, ?_, by decide, by decide⟩
  · simp [Template.parse, Template.validate_delimiters, validateAux, parseAux,
      Alignment.default, hCO, h, String.toList]
  · simp [Template.parse, Template.validate_delimiters, validateAux, parseAux,
      Alignment.default, hCO, h, String.toList]
  · simp [Template.format, formatParts, Except.map, String.append_empty]
  · simp [Template.format, formatParts, Except.map, String.append_empty]

/-- Witness for C10 at the concrete distinct delimiters `'{'`/`'}'`. -/
theorem escape_roundtrip_witness :
    ('{' : Char) ≠ '}'
    ∧ (Template.parse '{' '}' (String.mk ['{', '{']) =
        some (Except.ok ⟨[Part.Literal (String.mk ['{'])], Alignment.Left⟩)
      ∧ Template.parse '{' '}' (String.mk ['}', '}']) =
        some (Except.ok ⟨[Part.Literal (String.mk ['}'])], Alignment.Left⟩)
      ∧ Template.format ⟨[Part.Literal (String.mk ['{'])], Alignment.Left⟩ [] =
        Except.ok (String.mk ['{'])
      ∧ Template.format ⟨[Part.Literal (String.mk ['}'])], Alignment.Left⟩ [] =
        Except.ok (String.mk ['}'])
      ∧ Template.parse '{' '}' "\x7b\x7bliteral\x7d\x7d" =
        some (Except.ok ⟨[Part.Literal "\x7bliteral\x7d"], Alignment.Left⟩)
      ∧ Template.format ⟨[Part.Literal "\x7bliteral\x7d"], Alignment.Left⟩ [] =
        Except.ok "\x7bliteral\x7d") :=
  ⟨by decide, escape_roundtrip '{' '}' (by decide)⟩

end Figura
